import Mathlib

/-!
Shallow embedding of the RTP sender core
(`webrtc/modules/rtp_rtcp/source/rtp_sender.cc`) and proofs about its
payload registration, padding generation, NACK bandwidth gating, RTX
framing, in-place header-extension patching and sender-state updates.

Byte buffers are modelled as `List Nat` (each element a byte value),
machine integers as `Nat`/`Int` with explicit reductions modulo
`2 ^ w` where wrap-around matters.
-/

/-- Audio payload descriptor: the audio variant of `RtpUtility::Payload`
(`name`, `typeSpecific.Audio.{frequency, channels, rate}`). -/
structure AudioPayload where
  name : String
  frequency : Nat
  channels : Nat
  rate : Nat
deriving DecidableEq

/-- Video payload descriptor: the video variant of `RtpUtility::Payload`
(`name`, `typeSpecific.Video.{videoCodecType, maxRate}`). -/
structure VideoPayload where
  name : String
  videoCodecType : Nat
  maxRate : Nat
deriving DecidableEq

/-- Registered payload descriptor (`RtpUtility::Payload`): either audio or
video type-specific data. -/
inductive Payload where
  | audio (a : AudioPayload)
  | video (v : VideoPayload)
deriving DecidableEq

/-- Lookup in the payload-type map (`payload_type_map_.find`), keyed by the
7-bit payload-type number. -/
def lookupPayload (m : List (Int × Payload)) (pt : Int) : Option Payload :=
  match m with
  | [] => none
  | (k, p) :: rest => if k = pt then some p else lookupPayload rest pt

/-- Overwrite the descriptor stored under an existing key (the in-place
mutation `payload->typeSpecific.Audio.rate = rate` through the map entry). -/
def setPayload (m : List (Int × Payload)) (pt : Int) (p : Payload) :
    List (Int × Payload) :=
  match m with
  | [] => []
  | (k, q) :: rest =>
      if k = pt then (k, p) :: rest else (k, q) :: setPayload rest pt p

/-- Remove a key from the payload-type map (`payload_type_map_.erase`). -/
def erasePayload (m : List (Int × Payload)) (pt : Int) : List (Int × Payload) :=
  match m with
  | [] => []
  | (k, q) :: rest =>
      if k = pt then rest else (k, q) :: erasePayload rest pt

/-- Embedding of `RTPSender::RegisterPayload` (rtp_sender.cc:223-268).
Returns the `int32_t` result and the updated payload-type map.  On a
duplicate key with matching name, the audio branch requires the sender to be
audio-configured, the stored descriptor to be audio with the same frequency,
and the rates to be equal or either zero; it then stores the NEW rate.  The
video branch accepts any video descriptor with the same name on a
video-configured sender.  `RtpUtility::StringCompare` and the fresh
registrations `RTPSenderAudio::RegisterAudioPayload` /
`RTPSenderVideo::RegisterVideoPayload` live outside this file; the name
comparison is modelled as string equality and the fresh branch is modelled
from the spec (a new `Audio{frequency_hz, channels, rate}` resp.
`Video{codec_type, max_bitrate}` descriptor is inserted under the key). -/
def registerPayload (audio_configured : Bool) (m : List (Int × Payload))
    (payload_name : String) (payload_number : Int)
    (frequency : Nat) (channels : Nat) (rate : Nat) :
    Int × List (Int × Payload) :=
  match lookupPayload m payload_number with
  | some (Payload.audio a) =>
      if a.name = payload_name ∧ audio_configured = true ∧
          a.frequency = frequency ∧ (a.rate = rate ∨ a.rate = 0 ∨ rate = 0) then
        (0, setPayload m payload_number (Payload.audio { a with rate := rate }))
      else
        (-1, m)
  | some (Payload.video v) =>
      if v.name = payload_name ∧ audio_configured = false then
        (0, m)
      else
        (-1, m)
  | none =>
      if audio_configured then
        (0, (payload_number, Payload.audio
              { name := payload_name, frequency := frequency,
                channels := channels, rate := rate }) :: m)
      else
        (0, (payload_number, Payload.video
              { name := payload_name, videoCodecType := 0,
                maxRate := rate }) :: m)

/-- After overwriting an existing key, lookup returns the new descriptor. -/
theorem lookupPayload_setPayload (m : List (Int × Payload)) (pt : Int)
    (p q : Payload) (hm : lookupPayload m pt = some q) :
    lookupPayload (setPayload m pt p) pt = some p := by
  induction m with
  | nil => simp [lookupPayload] at hm
  | cons kv rest ih =>
      obtain ⟨k, r⟩ := kv
      by_cases hk : k = pt
      · simp [lookupPayload, setPayload, hk]
      · simp only [lookupPayload, setPayload, if_neg hk] at hm ⊢
        exact ih hm

/-- State of the audio payload-type map in the C1 scenario: payload number 97
registered as an audio descriptor with frequency 48000 and rate 8000. -/
def c1Map : List (Int × Payload) :=
  [(97, Payload.audio
      { name := "opus", frequency := 48000, channels := 2, rate := 8000 })]

/-- C1 counterexample: re-registering payload 97 with the same name and
frequency but rate 0 succeeds, yet the stored rate afterwards is 0 — the new
rate — not the nonzero value 8000 of the two, contradicting the claim that
in the either-side-zero case the stored rate ends up at the nonzero value. -/
theorem c1_rate_zero_overwrites :
    (registerPayload true c1Map "opus" 97 48000 2 0).1 = 0 ∧
    lookupPayload (registerPayload true c1Map "opus" 97 48000 2 0).2 97 =
      some (Payload.audio
        { name := "opus", frequency := 48000, channels := 2, rate := 0 }) ∧
    lookupPayload (registerPayload true c1Map "opus" 97 48000 2 0).2 97 ≠
      some (Payload.audio
        { name := "opus", frequency := 48000, channels := 2, rate := 8000 }) := by
  refine ⟨by decide, by decide, by decide⟩

/-- C1 (amended): for a payload-type number already registered to an audio
descriptor on an audio-configured sender, registration succeeds iff the name
and frequency match and the rates are equal or either is zero; on success the
stored rate afterwards equals the NEW rate (so a zero new rate overwrites a
nonzero stored rate with zero); on any mismatch registration fails with -1
and the map is unchanged. -/
theorem c1_registerPayload_audio_duplicate
    (m : List (Int × Payload)) (name : String) (pt : Int)
    (freq ch rate : Nat) (a : AudioPayload)
    (hm : lookupPayload m pt = some (Payload.audio a)) :
    ((registerPayload true m name pt freq ch rate).1 = 0 ↔
      (a.name = name ∧ a.frequency = freq ∧
        (a.rate = rate ∨ a.rate = 0 ∨ rate = 0))) ∧
    (a.name = name ∧ a.frequency = freq ∧
        (a.rate = rate ∨ a.rate = 0 ∨ rate = 0) →
      lookupPayload (registerPayload true m name pt freq ch rate).2 pt =
        some (Payload.audio { a with rate := rate })) ∧
    (¬ (a.name = name ∧ a.frequency = freq ∧
        (a.rate = rate ∨ a.rate = 0 ∨ rate = 0)) →
      (registerPayload true m name pt freq ch rate).1 = -1 ∧
      (registerPayload true m name pt freq ch rate).2 = m) := by
  have hred : registerPayload true m name pt freq ch rate =
      (if a.name = name ∧ true = true ∧ a.frequency = freq ∧
          (a.rate = rate ∨ a.rate = 0 ∨ rate = 0) then
        (0, setPayload m pt (Payload.audio { a with rate := rate }))
      else (-1, m)) := by
    unfold registerPayload
    rw [hm]
  rw [hred]
  by_cases h : a.name = name ∧ a.frequency = freq ∧
      (a.rate = rate ∨ a.rate = 0 ∨ rate = 0)
  · have hcond : a.name = name ∧ true = true ∧ a.frequency = freq ∧
        (a.rate = rate ∨ a.rate = 0 ∨ rate = 0) :=
      ⟨h.1, rfl, h.2.1, h.2.2⟩
    rw [if_pos hcond]
    refine ⟨by simp [h], fun _ => ?_, fun hc => absurd h hc⟩
    exact lookupPayload_setPayload m pt _ _ hm
  · have hcond : ¬ (a.name = name ∧ true = true ∧ a.frequency = freq ∧
        (a.rate = rate ∨ a.rate = 0 ∨ rate = 0)) := by
      intro hc
      exact h ⟨hc.1, hc.2.2.1, hc.2.2.2⟩
    rw [if_neg hcond]
    have hne : ((-1 : Int), m).1 ≠ 0 := by
      show (-1 : Int) ≠ 0
      decide
    refine ⟨⟨fun hz => absurd hz hne, fun hc => absurd hc h⟩,
      fun hc => absurd hc h, fun _ => ⟨rfl, rfl⟩⟩

/-- C1 witness: instantiates the amended theorem on the concrete map holding
payload 97 (audio, frequency 48000, rate 8000) with a matching
re-registration at rate 0. -/
theorem c1_registerPayload_audio_duplicate_witness :
    ((registerPayload true c1Map "opus" 97 48000 2 0).1 = 0 ↔
      ("opus" = "opus" ∧ (48000 : Nat) = 48000 ∧
        ((8000 : Nat) = 0 ∨ (8000 : Nat) = 0 ∨ (0 : Nat) = 0))) ∧
    (("opus" = "opus" ∧ (48000 : Nat) = 48000 ∧
        ((8000 : Nat) = 0 ∨ (8000 : Nat) = 0 ∨ (0 : Nat) = 0)) →
      lookupPayload (registerPayload true c1Map "opus" 97 48000 2 0).2 97 =
        some (Payload.audio
          { name := "opus", frequency := 48000, channels := 2, rate := 0 })) ∧
    (¬ ("opus" = "opus" ∧ (48000 : Nat) = 48000 ∧
        ((8000 : Nat) = 0 ∨ (8000 : Nat) = 0 ∨ (0 : Nat) = 0)) →
      (registerPayload true c1Map "opus" 97 48000 2 0).1 = -1 ∧
      (registerPayload true c1Map "opus" 97 48000 2 0).2 = c1Map) :=
  c1_registerPayload_audio_duplicate c1Map "opus" 97 48000 2 0
    { name := "opus", frequency := 48000, channels := 2, rate := 8000 }
    (by decide)

/-- Sender state consulted by `RTPSender::CheckPayloadType`
(rtp_sender.cc:358-397): whether the sender is audio-configured, the RED
payload type held by the `RTPSenderAudio` collaborator (`audio_->RED`,
outside this file; `none` when RED is not configured), the active payload
type `payload_type_`, the registration map `payload_type_map_`, and the
`RTPSenderVideo` codec state mutated on a video hit. -/
structure PTState where
  audio_configured : Bool
  red_payload_type : Option Int
  payload_type : Int
  payload_type_map : List (Int × Payload)
  video_codec_type : Nat
  video_max_bitrate : Nat
deriving DecidableEq

/-- Embedding of `RTPSender::CheckPayloadType` (rtp_sender.cc:358-397).
Returns the `int32_t` result, the updated sender state, and the
`*video_type` out-parameter (`none` when it is not written). -/
def checkPayloadType (st : PTState) (payload_type : Int) :
    Int × PTState × Option Nat :=
  if payload_type < 0 then (-1, st, none)
  else if st.audio_configured = true ∧ st.red_payload_type = some payload_type
  then (0, st, none)
  else if st.payload_type = payload_type then
    (0, st, if st.audio_configured then none else some st.video_codec_type)
  else
    match lookupPayload st.payload_type_map payload_type with
    | none => (-1, st, none)
    | some (Payload.video v) =>
        if st.audio_configured = false then
          (0, { st with payload_type := payload_type,
                        video_codec_type := v.videoCodecType,
                        video_max_bitrate := v.maxRate },
           some v.videoCodecType)
        else (0, { st with payload_type := payload_type }, none)
    | some (Payload.audio _) =>
        (0, { st with payload_type := payload_type }, none)

/-- Embedding of `RTPSender::DeRegisterSendPayload` (rtp_sender.cc:270-284):
erases the map entry if present; the active `payload_type_` is untouched. -/
def deRegisterSendPayload (st : PTState) (payload_type : Int) : Int × PTState :=
  match lookupPayload st.payload_type_map payload_type with
  | none => (-1, st)
  | some _ =>
      (0, { st with payload_type_map :=
              erasePayload st.payload_type_map payload_type })

/-- When the queried payload type equals the active one (and is nonnegative),
`checkPayloadType` succeeds and leaves the sender state unchanged. -/
theorem checkPayloadType_active_aux (st : PTState) (pt : Int)
    (hpt : 0 ≤ pt) (hact : st.payload_type = pt) :
    (checkPayloadType st pt).1 = 0 ∧ (checkPayloadType st pt).2.1 = st := by
  unfold checkPayloadType
  rw [if_neg (not_lt.mpr hpt)]
  by_cases hred : st.audio_configured = true ∧ st.red_payload_type = some pt
  · rw [if_pos hred]
    exact ⟨rfl, rfl⟩
  · rw [if_neg hred, if_pos hact]
    exact ⟨rfl, rfl⟩

/-- `deRegisterSendPayload` never changes any field but the map. -/
theorem deRegisterSendPayload_fields (st : PTState) (pt : Int) :
    (deRegisterSendPayload st pt).2.payload_type = st.payload_type ∧
    (deRegisterSendPayload st pt).2.audio_configured = st.audio_configured ∧
    (deRegisterSendPayload st pt).2.red_payload_type = st.red_payload_type := by
  unfold deRegisterSendPayload
  cases h : lookupPayload st.payload_type_map pt <;> simp

/-- C10: for every nonnegative payload-type number equal to the active
payload type, `checkPayloadType` succeeds without consulting the payload
registration map (the result and state are the same for every map contents)
and without changing state; in particular it still succeeds after the type
has been removed by `deRegisterSendPayload`, so the unregistered-payload
failure is never raised for the active type. -/
theorem c10_checkPayloadType_active (st : PTState) (pt : Int)
    (hpt : 0 ≤ pt) (hact : st.payload_type = pt) :
    ((checkPayloadType st pt).1 = 0 ∧ (checkPayloadType st pt).2.1 = st) ∧
    (∀ m2 : List (Int × Payload),
      (checkPayloadType { st with payload_type_map := m2 } pt).1 = 0 ∧
      (checkPayloadType { st with payload_type_map := m2 } pt).2.1 =
        { st with payload_type_map := m2 }) ∧
    ((checkPayloadType (deRegisterSendPayload st pt).2 pt).1 = 0 ∧
      (checkPayloadType (deRegisterSendPayload st pt).2 pt).2.1 =
        (deRegisterSendPayload st pt).2) := by
  refine ⟨checkPayloadType_active_aux st pt hpt hact,
    fun m2 => checkPayloadType_active_aux _ pt hpt hact, ?_⟩
  exact checkPayloadType_active_aux _ pt hpt
    ((deRegisterSendPayload_fields st pt).1.trans hact)

/-- Concrete sender state for the C10 witness: a video-configured sender
whose active payload type 100 is registered as VP8 in the map. -/
def c10State : PTState :=
  { audio_configured := false
    red_payload_type := none
    payload_type := 100
    payload_type_map :=
      [(100, Payload.video { name := "VP8", videoCodecType := 8, maxRate := 0 })]
    video_codec_type := 8
    video_max_bitrate := 0 }

/-- C10 witness: on the concrete video sender state, querying the active
payload type 100 succeeds with unchanged state, for any map contents, and
still succeeds after payload 100 has been deregistered. -/
theorem c10_checkPayloadType_active_witness :
    ((checkPayloadType c10State 100).1 = 0 ∧
      (checkPayloadType c10State 100).2.1 = c10State) ∧
    (∀ m2 : List (Int × Payload),
      (checkPayloadType { c10State with payload_type_map := m2 } 100).1 = 0 ∧
      (checkPayloadType { c10State with payload_type_map := m2 } 100).2.1 =
        { c10State with payload_type_map := m2 }) ∧
    ((checkPayloadType (deRegisterSendPayload c10State 100).2 100).1 = 0 ∧
      (checkPayloadType (deRegisterSendPayload c10State 100).2 100).2.1 =
        (deRegisterSendPayload c10State 100).2) :=
  c10_checkPayloadType_active c10State 100 (by decide) (by decide)

/-- Maximum padding payload per packet, `kMaxPaddingLength` (rtp_sender.cc:25):
limited to a multiple of 32 for SRTP. -/
def kMaxPaddingLength : Nat := 224

/-- RTX mode bit `kRtxRetransmitted`.  The `RtxMode` enum is declared in a
header outside this file; modelled from the spec: RTX mode bitmask
Off = 0, Retransmit = 1, RedundantPayloads = 2. -/
def kRtxRetransmitted : Nat := 1

/-- RTX mode bit `kRtxRedundantPayloads` (see `kRtxRetransmitted`). -/
def kRtxRedundantPayloads : Nat := 2

/-- Slice of `RTPSender` state read and written by the padding path
(rtp_sender.cc:493-567 and 869-902): `sending_media_`, the RTX mode bitmask
`rtx_` (`kRtxOff` is the value 0), `last_packet_marker_bit_`,
`media_has_been_sent_`, whether the AbsoluteSendTime extension is registered
in `rtp_header_extension_map_`, the two SSRCs and the two 16-bit sequence
counters. -/
structure PadState where
  sending_media : Bool
  rtx : Nat
  last_packet_marker_bit : Bool
  media_has_been_sent : Bool
  abs_send_time_registered : Bool
  ssrc : Nat
  ssrc_rtx : Nat
  sequence_number : Nat
  sequence_number_rtx : Nat
deriving DecidableEq

/-- One padding packet emitted by `SendPadData`: which stream it went out on,
the SSRC and sequence number placed in its header, and its padding payload
length `padding_bytes_in_packet`. -/
structure PaddingPacket where
  over_rtx : Bool
  ssrc : Nat
  sequence_number : Nat
  payload_bytes : Nat
deriving DecidableEq

/-- Loop body of `RTPSender::SendPadData` (rtp_sender.cc:503-564).  Returns
`bytes_sent`, the list of padding packets actually transmitted, and the
updated state.  `transportOk i` is the success of the i-th
`SendPacketToNetwork` call (the `Transport` collaborator is external); on
failure the loop breaks before accounting the packet.  The loop rounds any
remaining budget below `kMaxPaddingLength` up to a full packet, takes the
media SSRC/sequence (requiring the last packet of a frame) when RTX is off
and the RTX SSRC/sequence (requiring a prior media send or a registered
AbsoluteSendTime extension) otherwise, and emits
`BuildPaddingPacket`'s `min kMaxPaddingLength bytes` padding bytes per
packet.  The header bytes, random body and in-place extension patching do
not affect the recorded quantities and are modelled by the byte-level
functions elsewhere in this file. -/
def sendPadData (transportOk : Nat → Bool) (st : PadState)
    (bytes bytes_sent idx : Nat) : Nat × List PaddingPacket × PadState :=
  if bytes = 0 then (bytes_sent, [], st)
  else
    let bytes1 := if bytes < kMaxPaddingLength then kMaxPaddingLength else bytes
    if st.rtx = 0 then
      if st.last_packet_marker_bit = false then (bytes_sent, [], st)
      else
        let pkt : PaddingPacket :=
          { over_rtx := false, ssrc := st.ssrc,
            sequence_number := st.sequence_number,
            payload_bytes := min kMaxPaddingLength bytes1 }
        let st1 := { st with
          sequence_number := (st.sequence_number + 1) % 65536 }
        if transportOk idx = false then (bytes_sent, [], st1)
        else
          let r := sendPadData transportOk st1 (bytes1 - pkt.payload_bytes)
            (bytes_sent + pkt.payload_bytes) (idx + 1)
          (r.1, pkt :: r.2.1, r.2.2)
    else
      if st.media_has_been_sent = false ∧ st.abs_send_time_registered = false
      then (bytes_sent, [], st)
      else
        let pkt : PaddingPacket :=
          { over_rtx := true, ssrc := st.ssrc_rtx,
            sequence_number := st.sequence_number_rtx,
            payload_bytes := min kMaxPaddingLength bytes1 }
        let st1 := { st with
          sequence_number_rtx := (st.sequence_number_rtx + 1) % 65536 }
        if transportOk idx = false then (bytes_sent, [], st1)
        else
          let r := sendPadData transportOk st1 (bytes1 - pkt.payload_bytes)
            (bytes_sent + pkt.payload_bytes) (idx + 1)
          (r.1, pkt :: r.2.1, r.2.2)
termination_by bytes
decreasing_by
  all_goals
    simp only [kMaxPaddingLength, Nat.min_def]
    split <;> (try split) <;> omega

/-- Entry of `RTPSender::SendPadData` (rtp_sender.cc:497-500): when not
sending media the function returns its `bytes` argument untouched. -/
def sendPadDataEntry (transportOk : Nat → Bool) (st : PadState)
    (bytes : Nat) : Nat × List PaddingPacket × PadState :=
  if st.sending_media = false then (bytes, [], st)
  else sendPadData transportOk st bytes 0 0

/-- Embedding of `RTPSender::TimeToSendPadding` (rtp_sender.cc:869-902).
`redundant` stands for `SendRedundantPayloads`, whose packet source
`RTPPacketHistory::GetBestFittingPacket` lives outside this file; it is
consulted only when the `kRtxRedundantPayloads` bit is set.  The timestamp
and payload-type snapshot taken under the lock does not influence the
quantities recorded here. -/
def timeToSendPadding (transportOk : Nat → Bool) (redundant : Nat → Nat)
    (st : PadState) (bytes : Nat) : Nat × List PaddingPacket × PadState :=
  if st.sending_media = false then (0, [], st)
  else
    let bytes_sent :=
      if st.rtx &&& kRtxRedundantPayloads ≠ 0 then redundant bytes else 0
    let remaining := bytes - bytes_sent
    if 0 < remaining then
      let r := sendPadDataEntry transportOk st remaining
      (bytes_sent + r.1, r.2.1, r.2.2)
    else (bytes_sent, [], st)

/-- Ceiling-division step used by the padding loop: one packet of 224 bytes
per iteration until the (rounded-up) budget is exhausted. -/
theorem padCount_step (bytes : Nat) (hb : bytes ≠ 0) :
    (bytes + 223) / 224 =
      ((if bytes < kMaxPaddingLength then kMaxPaddingLength else bytes) - 224
        + 223) / 224 + 1 := by
  simp only [kMaxPaddingLength]
  split <;> omega

/-- With RTX off, the marker bit set and a cooperating transport, every
iteration of `sendPadData` emits a full 224-byte media-stream padding packet
and the loop runs exactly `⌈bytes / 224⌉` times. -/
theorem sendPadData_rtx_off (bytes : Nat) : ∀ (st : PadState)
    (acc idx : Nat) (T : Nat → Bool),
    st.rtx = 0 → st.last_packet_marker_bit = true → (∀ i, T i = true) →
    (sendPadData T st bytes acc idx).1 = acc + 224 * ((bytes + 223) / 224) ∧
    (sendPadData T st bytes acc idx).2.1.length = (bytes + 223) / 224 ∧
    ∀ p ∈ (sendPadData T st bytes acc idx).2.1,
      p.payload_bytes = 224 ∧ p.over_rtx = false := by
  induction bytes using Nat.strong_induction_on with
  | _ bytes ih =>
    intro st acc idx T hrtx hm hT
    rw [sendPadData.eq_def]
    by_cases h0 : bytes = 0
    · subst h0
      simp
    · have hmin : min kMaxPaddingLength
          (if bytes < kMaxPaddingLength then kMaxPaddingLength else bytes) =
          224 := by
        simp only [kMaxPaddingLength]
        split <;> omega
      have hdec : (if bytes < kMaxPaddingLength then kMaxPaddingLength
          else bytes) - 224 < bytes := by
        simp only [kMaxPaddingLength]
        split <;> omega
      simp only [if_neg h0, hrtx, hm, hT, reduceIte, Bool.true_eq_false,
        if_false, hmin]
      have hrec := ih _ hdec { st with
          sequence_number := (st.sequence_number + 1) % 65536 }
        (acc + min kMaxPaddingLength
          (if bytes < kMaxPaddingLength then kMaxPaddingLength else bytes))
        (idx + 1) T hrtx hm hT
      rw [hmin, hrtx, hm] at hrec
      refine ⟨?_, ?_, ?_⟩
      · rw [hrec.1, padCount_step bytes h0]
        ring
      · simp only [List.length_cons, hrec.2.1, padCount_step bytes h0]
      · intro p hp
        rcases List.mem_cons.mp hp with hph | hpt
        · rw [hph]
          exact ⟨rfl, rfl⟩
        · exact hrec.2.2 p hpt

/-- C2: while sending media with RTX off and the last media packet's marker
bit set (and the transport accepting every packet), each padding packet
emitted by `timeToSendPadding` carries exactly 224 payload bytes on the
media stream, the number of packets is the budget divided by 224 rounded up,
the return value is 224 times that count, and in particular a 500-byte
budget yields 3 packets and returns 672. -/
theorem c2_timeToSendPadding_full_packets (st : PadState) (bytes : Nat)
    (T : Nat → Bool) (R : Nat → Nat)
    (hs : st.sending_media = true) (hrtx : st.rtx = 0)
    (hm : st.last_packet_marker_bit = true) (hT : ∀ i, T i = true)
    (hb : 0 < bytes) :
    (timeToSendPadding T R st bytes).1 = 224 * ((bytes + 223) / 224) ∧
    (timeToSendPadding T R st bytes).2.1.length = (bytes + 223) / 224 ∧
    (∀ p ∈ (timeToSendPadding T R st bytes).2.1,
      p.payload_bytes = 224 ∧ p.over_rtx = false) ∧
    ((timeToSendPadding T R st 500).1 = 672 ∧
      (timeToSendPadding T R st 500).2.1.length = 3) := by
  have hmain : ∀ b : Nat, 0 < b →
      (timeToSendPadding T R st b).1 = 224 * ((b + 223) / 224) ∧
      (timeToSendPadding T R st b).2.1.length = (b + 223) / 224 ∧
      ∀ p ∈ (timeToSendPadding T R st b).2.1,
        p.payload_bytes = 224 ∧ p.over_rtx = false := by
    intro b hbpos
    have hband : st.rtx &&& kRtxRedundantPayloads = 0 := by
      rw [hrtx]
      rfl
    have hloop := sendPadData_rtx_off b st 0 0 T hrtx hm hT
    unfold timeToSendPadding sendPadDataEntry
    rw [hs]
    simp only [Bool.true_eq_false, if_false, hband, ne_eq,
      not_true_eq_false, if_neg (by simp : ¬ (0 : Nat) ≠ 0), Nat.sub_zero,
      if_pos hbpos, Nat.zero_add]
    exact ⟨by rw [hloop.1, Nat.zero_add], hloop.2.1, hloop.2.2⟩
  have h500 := hmain 500 (by decide)
  exact ⟨(hmain bytes hb).1, (hmain bytes hb).2.1, (hmain bytes hb).2.2,
    by rw [h500.1], by rw [h500.2.1]⟩

/-- Concrete sender state for the C2 witness: sending media, RTX off, last
packet ended a frame. -/
def c2State : PadState :=
  { sending_media := true, rtx := 0, last_packet_marker_bit := true,
    media_has_been_sent := true, abs_send_time_registered := false,
    ssrc := 0x1234, ssrc_rtx := 0x5678,
    sequence_number := 100, sequence_number_rtx := 200 }

/-- C2 witness: on the concrete state with an always-successful transport and
a 500-byte budget, the call emits 3 packets of 224 padding bytes each and
returns 672. -/
theorem c2_timeToSendPadding_full_packets_witness :
    (timeToSendPadding (fun _ => true) (fun _ => 0) c2State 500).1 =
      224 * ((500 + 223) / 224) ∧
    (timeToSendPadding (fun _ => true) (fun _ => 0) c2State 500).2.1.length =
      (500 + 223) / 224 ∧
    (∀ p ∈ (timeToSendPadding (fun _ => true) (fun _ => 0) c2State 500).2.1,
      p.payload_bytes = 224 ∧ p.over_rtx = false) ∧
    ((timeToSendPadding (fun _ => true) (fun _ => 0) c2State 500).1 = 672 ∧
      (timeToSendPadding (fun _ => true) (fun _ => 0) c2State 500).2.1.length
        = 3) :=
  c2_timeToSendPadding_full_packets c2State 500 (fun _ => true) (fun _ => 0)
    rfl rfl rfl (fun _ => rfl) (by decide)


/-- Unsigned 32-bit subtraction, the value of `now - t` when both operands
are `uint32_t`. -/
def u32sub (a b : Nat) : Nat :=
  (a % 4294967296 + 4294967296 - b % 4294967296) % 4294967296

/-- Reinterpretation of a `uint32_t` value as `int` (the
`static_cast<int>` applied to the bitrate-times-interval product). -/
def toInt32 (x : Nat) : Int :=
  if x % 4294967296 < 2147483648 then (x % 4294967296 : Int)
  else (x % 4294967296 : Int) - 4294967296

/-- Scan loop of `RTPSender::ProcessNACKBitRate` (rtp_sender.cc:708-715):
walks the ring slots newest-first, breaking at the first slot older than
`kAvgIntervalMs` = 1000 ms, and sums the byte counts of the slots before the
break.  A slot is the pair (timestamp `nack_byte_count_times_[i]`, byte
count `nack_byte_count_[i]`).  Returns (`num`, `byte_count`). -/
def nackScan (now : Nat) : List (Nat × Nat) → Nat × Nat
  | [] => (0, 0)
  | (t, c) :: rest =>
      if 1000 < u32sub now t then (0, 0)
      else
        ((nackScan now rest).1 + 1, c + (nackScan now rest).2)

/-- The `time_interval` computation of `RTPSender::ProcessNACKBitRate`
(rtp_sender.cc:716-723): 1000 ms, except when the scan consumed every slot,
in which case `now` minus the last (oldest) slot's timestamp, provided that
timestamp does not exceed `now` (unsigned comparison). -/
def nackInterval (now : Nat) (slots : List (Nat × Nat)) : Nat :=
  if (nackScan now slots).1 = slots.length then
    match slots.getLast? with
    | some (t, _) =>
        if t % 4294967296 ≤ now % 4294967296 then
          now % 4294967296 - t % 4294967296
        else 1000
    | none => 1000
  else 1000

/-- Embedding of `RTPSender::ProcessNACKBitRate` (rtp_sender.cc:697-726).
The ring capacity `NACK_BYTECOUNT_SIZE` is declared in a header outside this
file (the spec says only that the counter is a fixed-size ring of N slots),
so the model takes the ring contents as the list `slots` of
(timestamp, byte count) pairs, slot 0 newest; `slots.length` plays the role
of `NACK_BYTECOUNT_SIZE`.  The final comparison casts the `uint32_t`
product `target_bitrate / 1000 * time_interval` to `int`. -/
def processNACKBitRate (target_bitrate : Nat) (now : Nat)
    (slots : List (Nat × Nat)) : Bool :=
  if target_bitrate = 0 then true
  else
    decide ((((nackScan now slots).2 : Int) * 8) <
      toInt32 (target_bitrate % 4294967296 / 1000 * nackInterval now slots))

/-- For past timestamps and a 32-bit `now`, unsigned subtraction is plain
subtraction. -/
theorem u32sub_past (a b : Nat) (ha : a < 4294967296) (hba : b ≤ a) :
    u32sub a b = a - b := by
  unfold u32sub
  omega

/-- Under the ring invariants (timestamps in the past, newest first), the
scan returns the number of slots within the 1000 ms window and the sum of
their byte counts. -/
theorem nackScan_sorted (now : Nat) (hnow : now < 4294967296) :
    ∀ slots : List (Nat × Nat), (∀ s ∈ slots, s.1 ≤ now) →
    List.Pairwise (fun a b => b.1 ≤ a.1) slots →
    nackScan now slots =
      ((slots.filter (fun s => decide (now - s.1 ≤ 1000))).length,
        ((slots.filter (fun s => decide (now - s.1 ≤ 1000))).map
          (fun s => s.2)).sum) := by
  intro slots
  induction slots with
  | nil => intro _ _; rfl
  | cons hd tl ih =>
      intro hts hsort
      obtain ⟨t, c⟩ := hd
      have ht : t ≤ now := hts (t, c) (List.mem_cons_self _ _)
      rw [nackScan, u32sub_past now t hnow ht]
      by_cases hw : 1000 < now - t
      · rw [if_pos hw]
        have hall : List.filter (fun s => decide (now - s.1 ≤ 1000))
            ((t, c) :: tl) = [] := by
          rw [List.filter_eq_nil_iff]
          intro s hs
          rcases List.mem_cons.mp hs with hh | hh
          · rw [hh]
            simp only [decide_eq_true_eq]
            omega
          · have hle : s.1 ≤ t := (List.pairwise_cons.mp hsort).1 s hh
            simp only [decide_eq_true_eq]
            omega
        rw [hall]
        rfl
      · rw [if_neg hw]
        have hfc : List.filter (fun s => decide (now - s.1 ≤ 1000))
            ((t, c) :: tl) =
            (t, c) :: List.filter (fun s => decide (now - s.1 ≤ 1000)) tl := by
          rw [List.filter_cons_of_pos]
          simp only [decide_eq_true_eq]
          omega
        rw [hfc, ih (fun s hs => hts s (List.mem_cons_of_mem _ hs))
          (List.pairwise_cons.mp hsort).2]
        simp [Nat.add_comm]

/-- C3: with past timestamps arranged newest-first in the ring and no 32-bit
overflow, `processNACKBitRate` permits more NACK transmission iff the target
bitrate is zero, or eight times the sum of the byte counts recorded within
the past 1000 ms is strictly below the kbps target bitrate times the
interval, where the interval is 1000 ms unless every ring slot lies within
the window, in which case it is `now` minus the oldest slot's timestamp. -/
theorem c3_processNACKBitRate_gate (target_bitrate now : Nat)
    (slots : List (Nat × Nat))
    (hnow : now < 4294967296)
    (htb : target_bitrate < 2147483648)
    (hne : slots ≠ [])
    (hts : ∀ s ∈ slots, s.1 ≤ now)
    (hsorted : List.Pairwise (fun a b => b.1 ≤ a.1) slots) :
    processNACKBitRate target_bitrate now slots = true ↔
      (target_bitrate = 0 ∨
        ((slots.filter (fun s => decide (now - s.1 ≤ 1000))).map
            (fun s => s.2)).sum * 8 <
          target_bitrate / 1000 *
            (if slots.all (fun s => decide (now - s.1 ≤ 1000)) then
              now - (slots.getLast?.getD (0, 0)).1
            else 1000)) := by
  have hlast : ∃ tc : Nat × Nat, slots.getLast? = some tc := by
    rcases hgl : slots.getLast? with _ | s
    · rw [List.getLast?_eq_none_iff] at hgl
      exact absurd hgl hne
    · exact ⟨s, rfl⟩
  obtain ⟨⟨tl, cl⟩, hl⟩ := hlast
  have htl : tl ≤ now := hts (tl, cl)
    (List.mem_of_mem_getLast? (Option.mem_def.mpr hl))
  have hfilterlen : ((slots.filter
      (fun s => decide (now - s.1 ≤ 1000))).length = slots.length) ↔
      slots.all (fun s => decide (now - s.1 ≤ 1000)) = true := by
    constructor
    · intro hlen
      have heq : List.filter (fun s => decide (now - s.1 ≤ 1000)) slots =
          slots := (List.filter_sublist slots).eq_of_length hlen
      rw [List.all_eq_true]
      intro s hs
      exact List.filter_eq_self.mp heq s hs
    · intro hall
      rw [List.filter_eq_self.mpr (List.all_eq_true.mp hall)]
  have hint : nackInterval now slots =
      (if slots.all (fun s => decide (now - s.1 ≤ 1000)) then
        now - (slots.getLast?.getD (0, 0)).1
      else 1000) := by
    unfold nackInterval
    rw [nackScan_sorted now hnow slots hts hsorted]
    by_cases hall : slots.all (fun s => decide (now - s.1 ≤ 1000)) = true
    · rw [if_pos (hfilterlen.mpr hall), if_pos hall, hl]
      show (if tl % 4294967296 ≤ now % 4294967296 then
          now % 4294967296 - tl % 4294967296 else 1000) = now - tl
      rw [Nat.mod_eq_of_lt (lt_of_le_of_lt htl hnow), Nat.mod_eq_of_lt hnow,
        if_pos htl]
    · rw [if_neg (fun hc => hall (hfilterlen.mp hc)), if_neg hall]
  by_cases h0 : target_bitrate = 0
  · unfold processNACKBitRate
    simp [h0]
  · have hintle : (if slots.all (fun s => decide (now - s.1 ≤ 1000)) then
        now - (slots.getLast?.getD (0, 0)).1 else 1000) ≤ 1000 := by
      by_cases hall : slots.all (fun s => decide (now - s.1 ≤ 1000)) = true
      · rw [if_pos hall, hl]
        have hmem : decide (now - tl ≤ 1000) = true :=
          List.all_eq_true.mp hall (tl, cl)
            (List.mem_of_mem_getLast? (Option.mem_def.mpr hl))
        simp only [decide_eq_true_eq] at hmem
        simpa using hmem
      · rw [if_neg hall]
    have hsmall : target_bitrate / 1000 *
        (if slots.all (fun s => decide (now - s.1 ≤ 1000)) then
          now - (slots.getLast?.getD (0, 0)).1 else 1000) < 2147483648 := by
      calc target_bitrate / 1000 * _ ≤ target_bitrate / 1000 * 1000 :=
            Nat.mul_le_mul_left _ hintle
        _ ≤ target_bitrate := Nat.div_mul_le_self _ _
        _ < 2147483648 := htb
    unfold processNACKBitRate
    rw [if_neg h0, nackScan_sorted now hnow slots hts hsorted,
      Nat.mod_eq_of_lt (show target_bitrate < 4294967296 by omega), hint]
    have hcast : toInt32 (target_bitrate / 1000 *
        (if slots.all (fun s => decide (now - s.1 ≤ 1000)) then
          now - (slots.getLast?.getD (0, 0)).1 else 1000)) =
        ((target_bitrate / 1000 *
          (if slots.all (fun s => decide (now - s.1 ≤ 1000)) then
            now - (slots.getLast?.getD (0, 0)).1 else 1000) : Nat) : Int) := by
      unfold toInt32
      rw [if_pos (show _ % 4294967296 < 2147483648 by
        rw [Nat.mod_eq_of_lt (lt_trans hsmall (by omega))]
        exact hsmall)]
      exact Int.emod_eq_of_lt (Int.ofNat_nonneg _)
        (by exact_mod_cast lt_trans hsmall (by omega))
    rw [hcast]
    simp only [decide_eq_true_eq, h0, false_or]
    constructor
    · intro hlt
      exact_mod_cast hlt
    · intro hlt
      exact_mod_cast hlt

/-- Concrete ring contents for the C3 witness: two slots, the newer within
the window, the older outside it, at `now` = 5000 with a 64 kbps target. -/
def c3Slots : List (Nat × Nat) := [(4500, 2000), (3000, 7000)]

/-- C3 witness: instantiates the gate characterization at `now` = 5000 with
target bitrate 64000 bps and the two-slot ring; only the newer slot's 2000
bytes count, 2000·8 < 64·1000 holds, and indeed the gate is open. -/
theorem c3_processNACKBitRate_gate_witness :
    processNACKBitRate 64000 5000 c3Slots = true ↔
      ((64000 : Nat) = 0 ∨
        ((c3Slots.filter (fun s => decide (5000 - s.1 ≤ 1000))).map
            (fun s => s.2)).sum * 8 <
          64000 / 1000 *
            (if c3Slots.all (fun s => decide (5000 - s.1 ≤ 1000)) then
              5000 - (c3Slots.getLast?.getD (0, 0)).1
            else 1000)) :=
  c3_processNACKBitRate_gate 64000 5000 c3Slots (by decide) (by decide)
    (by decide) (by decide) (by decide)

/-- Loop of `RTPSender::OnReceivedNACK` (rtp_sender.cc:665-689) over the
NACKed sequence numbers.  `reSend seq min_resend_time` stands for the
`int32_t` result of `RTPSender::ReSendPacket` (rtp_sender.cc:578-620), whose
packet store `RTPPacketHistory` and pacer are collaborators outside this
file: positive means that many bytes were handed over for `seq`, zero means
packet not found or resent too recently, negative means failure.  The loop
calls it with `min_resend_time = 5 + avg_rtt`, accumulates the positive
results into the `uint32_t` counter `bytes_re_sent`, continues past zero
results, breaks the whole list on a negative result, and, when both the
target bitrate and `avg_rtt` are nonzero, breaks once the accumulated bytes
exceed `(uint32_t(target_bitrate / 1000) * avg_rtt) >> 3`.  Returns
`bytes_re_sent` and the sequence numbers for which `ReSendPacket` was
invoked, in order. -/
def onReceivedNACKLoop (reSend : Nat → Nat → Int)
    (target_bitrate avg_rtt : Nat) : List Nat → Nat → Nat × List Nat
  | [], bytes => (bytes, [])
  | s :: rest, bytes =>
      if 0 < reSend s (5 + avg_rtt) then
        if target_bitrate ≠ 0 ∧ avg_rtt ≠ 0 ∧
            target_bitrate % 4294967296 / 1000 * avg_rtt % 4294967296 / 8 <
              (bytes + (reSend s (5 + avg_rtt)).toNat) % 4294967296 then
          ((bytes + (reSend s (5 + avg_rtt)).toNat) % 4294967296, [s])
        else
          ((onReceivedNACKLoop reSend target_bitrate avg_rtt rest
              ((bytes + (reSend s (5 + avg_rtt)).toNat) % 4294967296)).1,
            s :: (onReceivedNACKLoop reSend target_bitrate avg_rtt rest
              ((bytes + (reSend s (5 + avg_rtt)).toNat) % 4294967296)).2)
      else if reSend s (5 + avg_rtt) = 0 then
        ((onReceivedNACKLoop reSend target_bitrate avg_rtt rest bytes).1,
          s :: (onReceivedNACKLoop reSend target_bitrate avg_rtt rest bytes).2)
      else (bytes, [s])

/-- Embedding of `RTPSender::OnReceivedNACK` (rtp_sender.cc:649-695): gate by
`processNACKBitRate`, then run the resend loop; returns `none` when the gate
is closed (the function logs and returns without resending). -/
def onReceivedNACK (reSend : Nat → Nat → Int)
    (target_bitrate now avg_rtt : Nat) (slots : List (Nat × Nat))
    (seqs : List Nat) : Option (Nat × List Nat) :=
  if processNACKBitRate target_bitrate now slots = true then
    some (onReceivedNACKLoop reSend target_bitrate avg_rtt seqs 0)
  else none

/-- Characterization of the NACK resend loop: the attempted list is a prefix
of the input, the byte counter is the (wrapped) sum of the positive resend
results over it, every attempted entry except possibly the last returned
nonnegative, and the loop stops early only on a negative result or on budget
exceedance after a positive one. -/
theorem onReceivedNACKLoop_spec (reSend : Nat → Nat → Int) (tb rtt : Nat) :
    ∀ (seqs : List Nat) (acc : Nat), acc < 4294967296 →
    (onReceivedNACKLoop reSend tb rtt seqs acc).1 =
      (acc + ((onReceivedNACKLoop reSend tb rtt seqs acc).2.map
        (fun s => (reSend s (5 + rtt)).toNat)).sum) % 4294967296 ∧
    (∃ rest, (onReceivedNACKLoop reSend tb rtt seqs acc).2 ++ rest = seqs) ∧
    (∀ s ∈ (onReceivedNACKLoop reSend tb rtt seqs acc).2.dropLast,
      0 ≤ reSend s (5 + rtt)) ∧
    ((onReceivedNACKLoop reSend tb rtt seqs acc).2 = seqs ∨
      ∃ s, (onReceivedNACKLoop reSend tb rtt seqs acc).2.getLast? = some s ∧
        (reSend s (5 + rtt) < 0 ∨
          (0 < reSend s (5 + rtt) ∧ tb ≠ 0 ∧ rtt ≠ 0 ∧
            tb % 4294967296 / 1000 * rtt % 4294967296 / 8 <
              (onReceivedNACKLoop reSend tb rtt seqs acc).1))) := by
  intro seqs
  induction seqs with
  | nil =>
      intro acc hacc
      refine ⟨?_, ⟨[], rfl⟩, ?_, Or.inl rfl⟩
      · simp [onReceivedNACKLoop, Nat.mod_eq_of_lt hacc]
      · intro s hs
        simp [onReceivedNACKLoop] at hs
  | cons s rest ih =>
      intro acc hacc
      by_cases hr : 0 < reSend s (5 + rtt)
      · by_cases hstop : tb ≠ 0 ∧ rtt ≠ 0 ∧
            tb % 4294967296 / 1000 * rtt % 4294967296 / 8 <
              (acc + (reSend s (5 + rtt)).toNat) % 4294967296
        · have hred : onReceivedNACKLoop reSend tb rtt (s :: rest) acc =
              ((acc + (reSend s (5 + rtt)).toNat) % 4294967296, [s]) := by
            rw [onReceivedNACKLoop, if_pos hr, if_pos hstop]
          rw [hred]
          refine ⟨?_, ⟨rest, rfl⟩, ?_, Or.inr ⟨s, rfl, Or.inr ⟨hr, hstop.1,
            hstop.2.1, hstop.2.2⟩⟩⟩
          · simp
          · intro x hx
            simp at hx
        · have hacc1 : (acc + (reSend s (5 + rtt)).toNat) % 4294967296 <
              4294967296 := Nat.mod_lt _ (by norm_num)
          have hred : onReceivedNACKLoop reSend tb rtt (s :: rest) acc =
              ((onReceivedNACKLoop reSend tb rtt rest
                  ((acc + (reSend s (5 + rtt)).toNat) % 4294967296)).1,
                s :: (onReceivedNACKLoop reSend tb rtt rest
                  ((acc + (reSend s (5 + rtt)).toNat) % 4294967296)).2) := by
            rw [onReceivedNACKLoop, if_pos hr, if_neg hstop]
          obtain ⟨hsum, ⟨tail0, htail⟩, hdrop, hlast⟩ :=
            ih ((acc + (reSend s (5 + rtt)).toNat) % 4294967296) hacc1
          rw [hred]
          dsimp only
          refine ⟨?_, ⟨tail0, by rw [List.cons_append, htail]⟩, ?_, ?_⟩
          · rw [hsum]
            simp only [List.map_cons, List.sum_cons, Nat.mod_add_mod]
            rw [Nat.add_assoc]
          · intro x hx
            rcases hrec2 : (onReceivedNACKLoop reSend tb rtt rest
                ((acc + (reSend s (5 + rtt)).toNat) % 4294967296)).2 with
              _ | ⟨y, ys⟩
            · rw [hrec2] at hx
              simp at hx
            · rw [hrec2, List.dropLast_cons₂] at hx
              rcases List.mem_cons.mp hx with hxs | hxs
              · rw [hxs]
                exact le_of_lt hr
              · refine hdrop x ?_
                rw [hrec2]
                exact hxs
          · rcases hlast with hfull | ⟨sl, hsl, hcond⟩
            · exact Or.inl (by rw [hfull])
            · rcases hrec2 : (onReceivedNACKLoop reSend tb rtt rest
                  ((acc + (reSend s (5 + rtt)).toNat) % 4294967296)).2 with
                _ | ⟨y, ys⟩
              · rw [hrec2] at hsl
                simp at hsl
              · refine Or.inr ⟨sl, ?_, hcond⟩
                rw [List.getLast?_cons_cons]
                rw [hrec2] at hsl
                exact hsl
      · by_cases hz : reSend s (5 + rtt) = 0
        · have hred : onReceivedNACKLoop reSend tb rtt (s :: rest) acc =
              ((onReceivedNACKLoop reSend tb rtt rest acc).1,
                s :: (onReceivedNACKLoop reSend tb rtt rest acc).2) := by
            rw [onReceivedNACKLoop, if_neg hr, if_pos hz]
          obtain ⟨hsum, ⟨tail0, htail⟩, hdrop, hlast⟩ := ih acc hacc
          rw [hred]
          dsimp only
          refine ⟨?_, ⟨tail0, by rw [List.cons_append, htail]⟩, ?_, ?_⟩
          · rw [hsum]
            simp only [List.map_cons, List.sum_cons, hz, Int.toNat_zero,
              Nat.zero_add]
          · intro x hx
            rcases hrec2 : (onReceivedNACKLoop reSend tb rtt rest acc).2 with
              _ | ⟨y, ys⟩
            · rw [hrec2] at hx
              simp at hx
            · rw [hrec2, List.dropLast_cons₂] at hx
              rcases List.mem_cons.mp hx with hxs | hxs
              · rw [hxs, hz]
              · refine hdrop x ?_
                rw [hrec2]
                exact hxs
          · rcases hlast with hfull | ⟨sl, hsl, hcond⟩
            · exact Or.inl (by rw [hfull])
            · rcases hrec2 : (onReceivedNACKLoop reSend tb rtt rest acc).2 with
                _ | ⟨y, ys⟩
              · rw [hrec2] at hsl
                simp at hsl
              · refine Or.inr ⟨sl, ?_, hcond⟩
                rw [List.getLast?_cons_cons]
                rw [hrec2] at hsl
                exact hsl
        · have hneg : reSend s (5 + rtt) < 0 := by
            omega
          have hred : onReceivedNACKLoop reSend tb rtt (s :: rest) acc =
              (acc, [s]) := by
            rw [onReceivedNACKLoop, if_neg hr, if_neg hz]
          rw [hred]
          refine ⟨?_, ⟨rest, rfl⟩, ?_, Or.inr ⟨s, rfl, Or.inl hneg⟩⟩
          · simp [Int.toNat_of_nonpos (le_of_lt hneg), Nat.mod_eq_of_lt hacc]
          · intro x hx
            simp at hx

/-- C4: with the NACK bandwidth gate open, `onReceivedNACK` resends via
`ReSendPacket` with minimum-resend interval `5 + avg_rtt` exactly a prefix
of the sequence-number list; the reported bytes are the sum of the positive
resend results over that prefix; every processed entry before the last
returned nonnegative (zero results continue to the next entry); and the
prefix is proper only when the last processed entry either returned negative
(aborting the remainder) or returned positive while the target bitrate and
`avg_rtt` are nonzero and the accumulated bytes exceed
`target_bitrate_kbps * avg_rtt / 8`. -/
theorem c4_onReceivedNACK_resend (reSend : Nat → Nat → Int)
    (target_bitrate now avg_rtt : Nat) (slots : List (Nat × Nat))
    (seqs : List Nat) (bytes : Nat) (att : List Nat)
    (hgate : processNACKBitRate target_bitrate now slots = true)
    (htb : target_bitrate < 4294967296)
    (hprod : target_bitrate / 1000 * avg_rtt < 4294967296)
    (hres : onReceivedNACKLoop reSend target_bitrate avg_rtt seqs 0 =
      (bytes, att)) :
    onReceivedNACK reSend target_bitrate now avg_rtt slots seqs =
      some (bytes, att) ∧
    bytes = ((att.map (fun s => (reSend s (5 + avg_rtt)).toNat)).sum)
      % 4294967296 ∧
    (∃ rest, att ++ rest = seqs) ∧
    (∀ s ∈ att.dropLast, 0 ≤ reSend s (5 + avg_rtt)) ∧
    (att = seqs ∨ ∃ s, att.getLast? = some s ∧
      (reSend s (5 + avg_rtt) < 0 ∨
        (0 < reSend s (5 + avg_rtt) ∧ target_bitrate ≠ 0 ∧ avg_rtt ≠ 0 ∧
          target_bitrate / 1000 * avg_rtt / 8 < bytes))) := by
  have hspec := onReceivedNACKLoop_spec reSend target_bitrate avg_rtt seqs 0
    (by norm_num)
  rw [hres] at hspec
  have hmodtb : target_bitrate % 4294967296 = target_bitrate :=
    Nat.mod_eq_of_lt htb
  have hmodprod : target_bitrate / 1000 * avg_rtt % 4294967296 =
      target_bitrate / 1000 * avg_rtt := Nat.mod_eq_of_lt hprod
  rw [hmodtb, hmodprod] at hspec
  dsimp only at hspec
  refine ⟨?_, ?_, hspec.2.1, hspec.2.2.1, hspec.2.2.2⟩
  · unfold onReceivedNACK
    rw [if_pos hgate, hres]
  · rw [hspec.1, Nat.zero_add]

/-- Resend outcomes for the C4 witness: sequence 1003 resends 700 bytes,
1005 resends 800 bytes. -/
def c4ReSend : Nat → Nat → Int :=
  fun s _ => if s = 1003 then 700 else if s = 1005 then 800 else 0

/-- Ring contents for the C4 witness: one slot 500 ms old holding 100 bytes,
which leaves the gate open at a 100 kbps target. -/
def c4Slots : List (Nat × Nat) := [(4500, 100)]

/-- C4 witness: with the gate open at `now` = 5000, target 100000 bps and
`avg_rtt` = 200 ms, NACKing sequences 1003 and 1005 resends both (1500
bytes, below the 2500-byte RTT budget) and processes the whole list. -/
theorem c4_onReceivedNACK_resend_witness :
    onReceivedNACK c4ReSend 100000 5000 200 c4Slots [1003, 1005] =
      some (1500, [1003, 1005]) ∧
    (1500 : Nat) = ((([1003, 1005] : List Nat).map
      (fun s => (c4ReSend s (5 + 200)).toNat)).sum) % 4294967296 ∧
    (∃ rest, [1003, 1005] ++ rest = ([1003, 1005] : List Nat)) ∧
    (∀ s ∈ ([1003, 1005] : List Nat).dropLast, 0 ≤ c4ReSend s (5 + 200)) ∧
    (([1003, 1005] : List Nat) = [1003, 1005] ∨ ∃ s,
      ([1003, 1005] : List Nat).getLast? = some s ∧
      (c4ReSend s (5 + 200) < 0 ∨
        (0 < c4ReSend s (5 + 200) ∧ (100000 : Nat) ≠ 0 ∧ (200 : Nat) ≠ 0 ∧
          100000 / 1000 * 200 / 8 < 1500))) :=
  c4_onReceivedNACK_resend c4ReSend 100000 5000 200 c4Slots [1003, 1005]
    1500 [1003, 1005] (by decide) (by decide) (by decide) (by decide)

/-- RTP marker bit mask for byte 1, `kRtpMarkerBitMask` = 0x80.  The constant
is declared in a header outside this file; modelled from the spec's wire
format (the marker bit is the top bit of the payload-type byte). -/
def kRtpMarkerBitMask : Nat := 128

/-- Big-endian 16-bit store, `RtpUtility::AssignUWord16ToBuffer` (the helper
lives outside this file; modelled from the spec: big-endian throughout). -/
def writeUWord16 (buf : List Nat) (pos v : Nat) : List Nat :=
  (buf.set pos (v % 65536 / 256)).set (pos + 1) (v % 256)

/-- Big-endian 32-bit store, `RtpUtility::AssignUWord32ToBuffer` (the helper
lives outside this file; modelled from the spec: big-endian throughout). -/
def writeUWord32 (buf : List Nat) (pos v : Nat) : List Nat :=
  (((buf.set pos (v % 4294967296 / 16777216)).set (pos + 1)
    (v % 16777216 / 65536)).set (pos + 2) (v % 65536 / 256)).set (pos + 3)
    (v % 256)

/-- Embedding of `RTPSender::BuildRtxPacket` (rtp_sender.cc:1619-1657).  The
original header bytes are copied, the payload-type byte is overwritten with
`payload_type_rtx_` (re-setting the marker bit when the parsed header had
it) unless `payload_type_rtx_` is -1, the sequence-number field gets the
post-incremented RTX counter, the SSRC field gets `ssrc_rtx_`, the original
sequence number (OSN) is appended big-endian after the header, then the
original payload; `*length` grows by 2.  `RtpUtility::RtpHeaderParser` lives
outside this file, so its outputs are inputs here: `headerLength`
(`rtp_header.headerLength`), `seqOrig` (`rtp_header.sequenceNumber`) and
`marker` (`rtp_header.markerBit`).  Returns the RTX buffer and the new value
of `sequence_number_rtx_` (16-bit wrap). -/
def buildRtxPacket (payload_type_rtx : Int)
    (sequence_number_rtx ssrc_rtx : Nat) (buffer : List Nat)
    (headerLength seqOrig : Nat) (marker : Bool) : List Nat × Nat :=
  let hdr0 := buffer.take headerLength
  let hdr1 :=
    if payload_type_rtx ≠ -1 then
      hdr0.set 1 ((payload_type_rtx % 256).toNat |||
        (if marker then kRtpMarkerBitMask else 0))
    else hdr0
  let hdr2 := writeUWord16 hdr1 2 sequence_number_rtx
  let hdr3 := writeUWord32 hdr2 8 ssrc_rtx
  (hdr3 ++ ([seqOrig % 65536 / 256, seqOrig % 256] ++ buffer.drop headerLength),
    (sequence_number_rtx + 1) % 65536)

/-- Setting the high bit by bitwise-or on a 7-bit value is addition. -/
theorem lor_128_of_lt (x : Nat) (hx : x < 128) : x ||| 128 = x + 128 := by
  have h := Nat.mul_add_lt_is_or (b := x) (i := 7) (by simpa using hx) 1
  rw [Nat.or_comm] at h
  simpa [Nat.add_comm, Nat.mul_one] using h.symm

/-- A 16-bit store leaves the buffer length unchanged. -/
theorem length_writeUWord16 (l : List Nat) (p v : Nat) :
    (writeUWord16 l p v).length = l.length := by
  simp [writeUWord16]

/-- A 16-bit store leaves bytes outside its two positions unchanged. -/
theorem getElem?_writeUWord16_ne (l : List Nat) (p v j : Nat)
    (h1 : j ≠ p) (h2 : j ≠ p + 1) :
    (writeUWord16 l p v)[j]? = l[j]? := by
  unfold writeUWord16
  rw [List.getElem?_set_ne (fun hc => h2 hc.symm),
    List.getElem?_set_ne (fun hc => h1 hc.symm)]

/-- High byte of a 16-bit store. -/
theorem getElem?_writeUWord16_fst (l : List Nat) (p v : Nat)
    (h : p < l.length) :
    (writeUWord16 l p v)[p]? = some (v % 65536 / 256) := by
  unfold writeUWord16
  rw [List.getElem?_set_ne (by omega), List.getElem?_set_self h]

/-- Low byte of a 16-bit store. -/
theorem getElem?_writeUWord16_snd (l : List Nat) (p v : Nat)
    (h : p + 1 < l.length) :
    (writeUWord16 l p v)[p + 1]? = some (v % 256) := by
  unfold writeUWord16
  rw [List.getElem?_set_self (by simpa using h)]

/-- A 32-bit store leaves the buffer length unchanged. -/
theorem length_writeUWord32 (l : List Nat) (p v : Nat) :
    (writeUWord32 l p v).length = l.length := by
  simp [writeUWord32]

/-- A 32-bit store leaves bytes outside its four positions unchanged. -/
theorem getElem?_writeUWord32_ne (l : List Nat) (p v j : Nat)
    (h1 : j ≠ p) (h2 : j ≠ p + 1) (h3 : j ≠ p + 2) (h4 : j ≠ p + 3) :
    (writeUWord32 l p v)[j]? = l[j]? := by
  unfold writeUWord32
  rw [List.getElem?_set_ne (fun hc => h4 hc.symm),
    List.getElem?_set_ne (fun hc => h3 hc.symm),
    List.getElem?_set_ne (fun hc => h2 hc.symm),
    List.getElem?_set_ne (fun hc => h1 hc.symm)]

/-- Byte 0 (most significant) of a 32-bit store. -/
theorem getElem?_writeUWord32_byte0 (l : List Nat) (p v : Nat)
    (h : p < l.length) :
    (writeUWord32 l p v)[p]? = some (v % 4294967296 / 16777216) := by
  unfold writeUWord32
  rw [List.getElem?_set_ne (by omega), List.getElem?_set_ne (by omega),
    List.getElem?_set_ne (by omega), List.getElem?_set_self h]

/-- Byte 1 of a 32-bit store. -/
theorem getElem?_writeUWord32_byte1 (l : List Nat) (p v : Nat)
    (h : p + 1 < l.length) :
    (writeUWord32 l p v)[p + 1]? = some (v % 16777216 / 65536) := by
  unfold writeUWord32
  rw [List.getElem?_set_ne (by omega), List.getElem?_set_ne (by omega),
    List.getElem?_set_self (by simpa using h)]

/-- Byte 2 of a 32-bit store. -/
theorem getElem?_writeUWord32_byte2 (l : List Nat) (p v : Nat)
    (h : p + 2 < l.length) :
    (writeUWord32 l p v)[p + 2]? = some (v % 65536 / 256) := by
  unfold writeUWord32
  rw [List.getElem?_set_ne (by omega),
    List.getElem?_set_self (by simpa using h)]

/-- Byte 3 (least significant) of a 32-bit store. -/
theorem getElem?_writeUWord32_byte3 (l : List Nat) (p v : Nat)
    (h : p + 3 < l.length) :
    (writeUWord32 l p v)[p + 3]? = some (v % 256) := by
  unfold writeUWord32
  rw [List.getElem?_set_self (by simpa using h)]

/-- C5: for a stored media packet wrapped as RTX with a configured (valid,
7-bit) RTX payload type, the output equals the original header with the
payload-type byte replaced by `payload_type_rtx` (the marker bit re-set
exactly when the original header had it), the sequence-number field replaced
by the RTX sequence number (the counter advancing by one, wrapping at 16
bits), the SSRC field replaced by `ssrc_rtx`, and the original 16-bit
sequence number inserted big-endian between header and payload; the total
length grows by exactly 2 and dropping the 2-byte OSN recovers the original
payload; all other header bytes are unchanged. -/
theorem c5_buildRtxPacket_frames (payload_type_rtx : Int)
    (seq_rtx ssrc_rtx : Nat) (buffer : List Nat)
    (headerLength seqOrig : Nat) (marker : Bool) (out : List Nat)
    (newseq : Nat)
    (hhl : 12 ≤ headerLength) (hlen : headerLength ≤ buffer.length)
    (hpt0 : 0 ≤ payload_type_rtx) (hpt : payload_type_rtx < 128)
    (hbuild : buildRtxPacket payload_type_rtx seq_rtx ssrc_rtx buffer
      headerLength seqOrig marker = (out, newseq)) :
    out.length = buffer.length + 2 ∧
    out.drop (headerLength + 2) = buffer.drop headerLength ∧
    out[headerLength]? = some (seqOrig % 65536 / 256) ∧
    out[headerLength + 1]? = some (seqOrig % 256) ∧
    out[1]? = some (payload_type_rtx.toNat + (if marker then 128 else 0)) ∧
    out[2]? = some (seq_rtx % 65536 / 256) ∧
    out[3]? = some (seq_rtx % 256) ∧
    out[8]? = some (ssrc_rtx % 4294967296 / 16777216) ∧
    out[9]? = some (ssrc_rtx % 16777216 / 65536) ∧
    out[10]? = some (ssrc_rtx % 65536 / 256) ∧
    out[11]? = some (ssrc_rtx % 256) ∧
    (∀ i, i < headerLength → i ≠ 1 → i ≠ 2 → i ≠ 3 → i ≠ 8 → i ≠ 9 →
      i ≠ 10 → i ≠ 11 → out[i]? = buffer[i]?) ∧
    newseq = (seq_rtx + 1) % 65536 := by
  have hptne : payload_type_rtx ≠ -1 := by omega
  unfold buildRtxPacket at hbuild
  simp only [] at hbuild
  rw [if_pos hptne] at hbuild
  injection hbuild with hout hseq
  subst hout
  subst hseq
  set PTB := (payload_type_rtx % 256).toNat |||
    (if marker then kRtpMarkerBitMask else 0) with hPTB
  set hdr1 := (buffer.take headerLength).set 1 PTB with hdr1def
  set hdr2 := writeUWord16 hdr1 2 seq_rtx with hdr2def
  set hdr3 := writeUWord32 hdr2 8 ssrc_rtx with hdr3def
  have hlen1 : hdr1.length = headerLength := by
    rw [hdr1def, List.length_set, List.length_take_of_le hlen]
  have hlen2 : hdr2.length = headerLength := by
    rw [hdr2def, length_writeUWord16, hlen1]
  have hlen3 : hdr3.length = headerLength := by
    rw [hdr3def, length_writeUWord32, hlen2]
  have hPTBval : PTB = payload_type_rtx.toNat + (if marker then 128 else 0) := by
    rw [hPTB]
    have hem : payload_type_rtx % 256 = payload_type_rtx := by omega
    rw [hem]
    cases marker
    · simp [kRtpMarkerBitMask]
    · simp only [kRtpMarkerBitMask, if_true]
      exact lor_128_of_lt _ (by omega)
  refine ⟨?_, ?_, ?_, ?_, ?_, ?_, ?_, ?_, ?_, ?_, ?_, ?_, rfl⟩
  · simp only [List.length_append, hlen3, List.length_cons,
      List.length_drop, List.length_nil]
    omega
  · rw [← List.append_assoc]
    exact List.drop_left' (by simp [hlen3])
  · rw [List.getElem?_append_right (le_of_eq hlen3), hlen3, Nat.sub_self]
    rfl
  · rw [List.getElem?_append_right
      (show hdr3.length ≤ headerLength + 1 by rw [hlen3]; omega), hlen3]
    simp
  · rw [List.getElem?_append_left (by rw [hlen3]; omega),
      hdr3def, getElem?_writeUWord32_ne hdr2 8 ssrc_rtx 1 (by omega) (by omega)
        (by omega) (by omega),
      hdr2def, getElem?_writeUWord16_ne hdr1 2 seq_rtx 1 (by omega) (by omega),
      hdr1def, List.getElem?_set_self
        (by rw [List.length_take_of_le hlen]; omega), hPTBval]
  · rw [List.getElem?_append_left (by rw [hlen3]; omega),
      hdr3def, getElem?_writeUWord32_ne hdr2 8 ssrc_rtx 2 (by omega) (by omega)
        (by omega) (by omega), hdr2def]
    exact getElem?_writeUWord16_fst hdr1 2 seq_rtx (by rw [hlen1]; omega)
  · rw [List.getElem?_append_left (by rw [hlen3]; omega),
      hdr3def, getElem?_writeUWord32_ne hdr2 8 ssrc_rtx 3 (by omega) (by omega)
        (by omega) (by omega), hdr2def]
    show (writeUWord16 hdr1 2 seq_rtx)[2 + 1]? = some (seq_rtx % 256)
    exact getElem?_writeUWord16_snd hdr1 2 seq_rtx (by rw [hlen1]; omega)
  · rw [List.getElem?_append_left (by rw [hlen3]; omega), hdr3def]
    exact getElem?_writeUWord32_byte0 hdr2 8 ssrc_rtx (by rw [hlen2]; omega)
  · rw [List.getElem?_append_left (by rw [hlen3]; omega), hdr3def]
    show (writeUWord32 hdr2 8 ssrc_rtx)[8 + 1]? = some (ssrc_rtx % 16777216 / 65536)
    exact getElem?_writeUWord32_byte1 hdr2 8 ssrc_rtx (by rw [hlen2]; omega)
  · rw [List.getElem?_append_left (by rw [hlen3]; omega), hdr3def]
    show (writeUWord32 hdr2 8 ssrc_rtx)[8 + 2]? = some (ssrc_rtx % 65536 / 256)
    exact getElem?_writeUWord32_byte2 hdr2 8 ssrc_rtx (by rw [hlen2]; omega)
  · rw [List.getElem?_append_left (by rw [hlen3]; omega), hdr3def]
    show (writeUWord32 hdr2 8 ssrc_rtx)[8 + 3]? = some (ssrc_rtx % 256)
    exact getElem?_writeUWord32_byte3 hdr2 8 ssrc_rtx (by rw [hlen2]; omega)
  · intro i hihl hi1 hi2 hi3 hi8 hi9 hi10 hi11
    rw [List.getElem?_append_left (by rw [hlen3]; omega),
      hdr3def, getElem?_writeUWord32_ne hdr2 8 ssrc_rtx i (by omega) (by omega)
        (by omega) (by omega),
      hdr2def, getElem?_writeUWord16_ne hdr1 2 seq_rtx i (by omega) (by omega),
      hdr1def, List.getElem?_set_ne (fun hc => hi1 hc.symm)]
    exact List.getElem?_take_of_lt hihl

/-- Stored media packet for the C5 witness: 12-byte header (payload type
100, marker set, sequence 1003 = 0x03EB, SSRC 5) and a 4-byte payload. -/
def c5Buffer : List Nat :=
  [0x80, 0xE4, 0x03, 0xEB, 0, 0, 0, 100, 0, 0, 0, 5, 9, 8, 7, 6]

/-- C5 witness: wrapping the concrete stored packet as RTX with payload type
97, RTX sequence 300 and RTX SSRC 0x11223344 satisfies every clause of the
framing theorem. -/
theorem c5_buildRtxPacket_frames_witness :
    (buildRtxPacket 97 300 287454020 c5Buffer 12 1003 true).1.length =
      c5Buffer.length + 2 ∧
    (buildRtxPacket 97 300 287454020 c5Buffer 12 1003 true).1.drop (12 + 2) =
      c5Buffer.drop 12 ∧
    (buildRtxPacket 97 300 287454020 c5Buffer 12 1003 true).1[12]? =
      some (1003 % 65536 / 256) ∧
    (buildRtxPacket 97 300 287454020 c5Buffer 12 1003 true).1[12 + 1]? =
      some (1003 % 256) ∧
    (buildRtxPacket 97 300 287454020 c5Buffer 12 1003 true).1[1]? =
      some ((97 : Int).toNat + (if true then 128 else 0)) ∧
    (buildRtxPacket 97 300 287454020 c5Buffer 12 1003 true).1[2]? =
      some (300 % 65536 / 256) ∧
    (buildRtxPacket 97 300 287454020 c5Buffer 12 1003 true).1[3]? =
      some (300 % 256) ∧
    (buildRtxPacket 97 300 287454020 c5Buffer 12 1003 true).1[8]? =
      some (287454020 % 4294967296 / 16777216) ∧
    (buildRtxPacket 97 300 287454020 c5Buffer 12 1003 true).1[9]? =
      some (287454020 % 16777216 / 65536) ∧
    (buildRtxPacket 97 300 287454020 c5Buffer 12 1003 true).1[10]? =
      some (287454020 % 65536 / 256) ∧
    (buildRtxPacket 97 300 287454020 c5Buffer 12 1003 true).1[11]? =
      some (287454020 % 256) ∧
    (∀ i, i < 12 → i ≠ 1 → i ≠ 2 → i ≠ 3 → i ≠ 8 → i ≠ 9 →
      i ≠ 10 → i ≠ 11 →
      (buildRtxPacket 97 300 287454020 c5Buffer 12 1003 true).1[i]? =
        c5Buffer[i]?) ∧
    (buildRtxPacket 97 300 287454020 c5Buffer 12 1003 true).2 =
      (300 + 1) % 65536 :=
  c5_buildRtxPacket_frames 97 300 287454020 c5Buffer 12 1003 true
    (buildRtxPacket 97 300 287454020 c5Buffer 12 1003 true).1
    (buildRtxPacket 97 300 287454020 c5Buffer 12 1003 true).2
    (by decide) (by decide) (by decide) (by decide) rfl

/-- Length in bytes of the transmission-time-offset extension block
(`kTransmissionTimeOffsetLength`): 1 ID/len byte + 3 value bytes, as
asserted by `BuildTransmissionTimeOffsetExtension` (rtp_sender.cc:1190). -/
def kTransmissionTimeOffsetLength : Nat := 4

/-- Length in bytes of the absolute-send-time extension block
(`kAbsoluteSendTimeLength`), asserted at rtp_sender.cc:1258. -/
def kAbsoluteSendTimeLength : Nat := 4

/-- Length in bytes of the audio-level extension block
(`kAudioLevelLength`, including the two pad bytes), asserted at
rtp_sender.cc:1225. -/
def kAudioLevelLength : Nat := 4

/-- Big-endian 24-bit store, `RtpUtility::AssignUWord24ToBuffer` (the helper
lives outside this file; modelled from the spec: big-endian throughout,
three bytes so only the low 24 bits of the value are stored). -/
def writeUWord24 (buf : List Nat) (pos v : Nat) : List Nat :=
  ((buf.set pos (v % 16777216 / 65536)).set (pos + 1)
    (v % 65536 / 256)).set (pos + 2) (v % 256)

/-- Low 24 bits, in two's complement, of a (possibly negative) integer — the
value that reaches the wire when an `int64_t` expression is passed through
the `uint32_t` parameter of the 24-bit store. -/
def u24ofInt (x : Int) : Nat := (x % 16777216).toNat

/-- Embedding of `RTPSender::UpdateTransmissionTimeOffset`
(rtp_sender.cc:1262-1306).  `reg` bundles the two queries on
`rtp_header_extension_map_` (a collaborator outside this file, modelled from
the spec: the map yields the user-assigned ID of a registered kind and the
byte offset of its block inside the extension block): `none` when the kind
is unregistered or has no block start, `some (id, extension_block_pos)`
otherwise.  The function validates the packet and header lengths, requires
the 0xBE 0xDE profile bytes at offset `12 + numCSRCs` (the source adds the
CSRC COUNT, not 4 bytes per CSRC) and the `(ID << 4) | 2` byte at the block
position, then overwrites the 24-bit value with `time_diff_ms * 90`;
on any failed check it returns the packet unchanged. -/
def updateTransmissionTimeOffset (reg : Option (Nat × Nat))
    (rtp_packet : List Nat) (rtp_packet_length : Nat)
    (numCSRCs headerLength : Nat) (time_diff_ms : Int) : List Nat :=
  match reg with
  | none => rtp_packet
  | some (id, extension_block_pos) =>
      if rtp_packet_length <
            12 + numCSRCs + extension_block_pos + kTransmissionTimeOffsetLength
          ∨ headerLength <
            12 + numCSRCs + extension_block_pos + kTransmissionTimeOffsetLength
      then rtp_packet
      else if ¬ (rtp_packet.getD (12 + numCSRCs) 0 = 0xBE ∧
          rtp_packet.getD (12 + numCSRCs + 1) 0 = 0xDE) then rtp_packet
      else if rtp_packet.getD (12 + numCSRCs + extension_block_pos) 0 ≠
          id * 16 + 2 then rtp_packet
      else
        writeUWord24 rtp_packet (12 + numCSRCs + extension_block_pos + 1)
          (u24ofInt (time_diff_ms * 90))

/-- Embedding of `RTPSender::UpdateAudioLevel` (rtp_sender.cc:1308-1349),
same validation structure (expected first block byte `(ID << 4) | 0`);
on success rewrites the single value byte and reports `true`. -/
def updateAudioLevel (reg : Option (Nat × Nat)) (rtp_packet : List Nat)
    (rtp_packet_length : Nat) (numCSRCs headerLength : Nat)
    (is_voiced : Bool) (dBov : Nat) : List Nat × Bool :=
  match reg with
  | none => (rtp_packet, false)
  | some (id, extension_block_pos) =>
      if rtp_packet_length <
            12 + numCSRCs + extension_block_pos + kAudioLevelLength
          ∨ headerLength <
            12 + numCSRCs + extension_block_pos + kAudioLevelLength
      then (rtp_packet, false)
      else if ¬ (rtp_packet.getD (12 + numCSRCs) 0 = 0xBE ∧
          rtp_packet.getD (12 + numCSRCs + 1) 0 = 0xDE) then
        (rtp_packet, false)
      else if rtp_packet.getD (12 + numCSRCs + extension_block_pos) 0 ≠
          id * 16 + 0 then (rtp_packet, false)
      else
        (rtp_packet.set (12 + numCSRCs + extension_block_pos + 1)
          ((if is_voiced then 128 else 0) + (dBov &&& 127)), true)

/-- The 24-bit absolute-send-time value:
`((now_ms << 18) / 1000) & 0x00ffffff` computed in `int64_t` (truncating
division, two's-complement masking). -/
def absoluteSendTime24 (now_ms : Int) : Nat :=
  (((now_ms * 262144).tdiv 1000) % 16777216).toNat

/-- Embedding of `RTPSender::UpdateAbsoluteSendTime`
(rtp_sender.cc:1351-1394), same validation structure as the
transmission-time-offset patcher; on success overwrites the 24-bit value
with the seconds-with-18-bit-fraction encoding of `now_ms`. -/
def updateAbsoluteSendTime (reg : Option (Nat × Nat))
    (rtp_packet : List Nat) (rtp_packet_length : Nat)
    (numCSRCs headerLength : Nat) (now_ms : Int) : List Nat :=
  match reg with
  | none => rtp_packet
  | some (id, extension_block_pos) =>
      if rtp_packet_length <
            12 + numCSRCs + extension_block_pos + kAbsoluteSendTimeLength
          ∨ headerLength <
            12 + numCSRCs + extension_block_pos + kAbsoluteSendTimeLength
      then rtp_packet
      else if ¬ (rtp_packet.getD (12 + numCSRCs) 0 = 0xBE ∧
          rtp_packet.getD (12 + numCSRCs + 1) 0 = 0xDE) then rtp_packet
      else if rtp_packet.getD (12 + numCSRCs + extension_block_pos) 0 ≠
          id * 16 + 2 then rtp_packet
      else
        writeUWord24 rtp_packet (12 + numCSRCs + extension_block_pos + 1)
          (absoluteSendTime24 now_ms)

/-- Packet for the C6 failing input: one CSRC (so the real extension profile
sits at offset 16), CSRC value 0x00BEDEFF — whose middle bytes 0xBE 0xDE lie
at offsets 13-14 —, profile bytes 0xBD 0x32 at 16-17 (so no 0xBE 0xDE at
offset 12 + 4·1), and a 4-byte extension body at 20-23. -/
def c6Packet : List Nat :=
  [0x91, 100, 0x03, 0xEB, 0, 0, 0, 100, 0, 0, 0, 5,
   0x00, 0xBE, 0xDE, 0xFF, 0xBD, 50, 0, 1, 9, 9, 9, 9]

/-- C6: the claim requires the buffer to stay byte-for-byte unchanged
whenever the 0xBE 0xDE profile bytes are absent at offset
`12 + 4*num_csrcs`; on this packet they are absent there (offset 16 holds
0xBD), yet `updateTransmissionTimeOffset` — which checks offset
`12 + numCSRCs`, where the CSRC value supplies spurious 0xBE 0xDE bytes —
mutates the buffer, overwriting byte 20 (9 becomes 194, the low byte of
5·90 = 450).  The in-place patchers add the CSRC count instead of 4 bytes
per CSRC, while `CreateRTPHeader` (rtp_sender.cc:1033-1071) places the
extension block at `12 + 4*num_csrcs`. -/
theorem c6_patch_mutates_despite_profile_absent :
    ¬ (c6Packet.getD (12 + 4 * 1) 0 = 0xBE ∧
        c6Packet.getD (12 + 4 * 1 + 1) 0 = 0xDE) ∧
    updateTransmissionTimeOffset (some (3, 4)) c6Packet 24 1 24 5 ≠
      c6Packet ∧
    (updateTransmissionTimeOffset (some (3, 4)) c6Packet 24 1 24 5).getD 20 0
      = 194 ∧
    c6Packet.getD 20 0 = 9 := by
  refine ⟨by decide, by decide, by decide, by decide⟩

/-- Byte 0 (most significant) of a 24-bit store. -/
theorem getElem?_writeUWord24_byte0 (l : List Nat) (p v : Nat)
    (h : p < l.length) :
    (writeUWord24 l p v)[p]? = some (v % 16777216 / 65536) := by
  unfold writeUWord24
  rw [List.getElem?_set_ne (by omega), List.getElem?_set_ne (by omega),
    List.getElem?_set_self h]

/-- Byte 1 of a 24-bit store. -/
theorem getElem?_writeUWord24_byte1 (l : List Nat) (p v : Nat)
    (h : p + 1 < l.length) :
    (writeUWord24 l p v)[p + 1]? = some (v % 65536 / 256) := by
  unfold writeUWord24
  rw [List.getElem?_set_ne (by omega),
    List.getElem?_set_self (by simpa using h)]

/-- Byte 2 (least significant) of a 24-bit store. -/
theorem getElem?_writeUWord24_byte2 (l : List Nat) (p v : Nat)
    (h : p + 2 < l.length) :
    (writeUWord24 l p v)[p + 2]? = some (v % 256) := by
  unfold writeUWord24
  rw [List.getElem?_set_self (by simpa using h)]

/-- A 24-bit store leaves bytes outside its three positions unchanged. -/
theorem getElem?_writeUWord24_ne (l : List Nat) (p v j : Nat)
    (h1 : j ≠ p) (h2 : j ≠ p + 1) (h3 : j ≠ p + 2) :
    (writeUWord24 l p v)[j]? = l[j]? := by
  unfold writeUWord24
  rw [List.getElem?_set_ne (fun hc => h3 hc.symm),
    List.getElem?_set_ne (fun hc => h2 hc.symm),
    List.getElem?_set_ne (fun hc => h1 hc.symm)]

/-- For nonnegative times the 24-bit absolute-send-time value is the plain
natural-number computation. -/
theorem absoluteSendTime24_of_nonneg (now_ms : Int) (h : 0 ≤ now_ms) :
    absoluteSendTime24 now_ms = now_ms.toNat * 262144 / 1000 % 16777216 := by
  unfold absoluteSendTime24
  have h1 : now_ms * 262144 = ((now_ms.toNat * 262144 : Nat) : Int) := by
    push_cast [Int.toNat_of_nonneg h]
    ring
  rw [h1, Int.tdiv_eq_ediv (Int.ofNat_nonneg _) (by norm_num)]
  norm_cast

/-- C7: for every successful absolute-send-time patch at a nonnegative
`now_ms` (all validation checks pass), the 24-bit value carried by the three
bytes written at the block position equals
`((now_ms << 18) / 1000) & 0x00FFFFFF`, and in particular the value at
`now_ms` = 1500 is 393216. -/
theorem c7_updateAbsoluteSendTime_value (id extpos : Nat) (pkt : List Nat)
    (rtp_packet_length numCSRCs headerLength : Nat) (now_ms : Int)
    (hnow : 0 ≤ now_ms)
    (hlen1 : ¬ (rtp_packet_length <
        12 + numCSRCs + extpos + kAbsoluteSendTimeLength ∨
      headerLength < 12 + numCSRCs + extpos + kAbsoluteSendTimeLength))
    (hprofile : pkt.getD (12 + numCSRCs) 0 = 0xBE ∧
      pkt.getD (12 + numCSRCs + 1) 0 = 0xDE)
    (hfirst : pkt.getD (12 + numCSRCs + extpos) 0 = id * 16 + 2)
    (hpklen : 12 + numCSRCs + extpos + kAbsoluteSendTimeLength ≤ pkt.length) :
    ((updateAbsoluteSendTime (some (id, extpos)) pkt rtp_packet_length
        numCSRCs headerLength now_ms)[12 + numCSRCs + extpos + 1]?.getD 0)
        * 65536 +
      ((updateAbsoluteSendTime (some (id, extpos)) pkt rtp_packet_length
        numCSRCs headerLength now_ms)[12 + numCSRCs + extpos + 2]?.getD 0)
        * 256 +
      ((updateAbsoluteSendTime (some (id, extpos)) pkt rtp_packet_length
        numCSRCs headerLength now_ms)[12 + numCSRCs + extpos + 3]?.getD 0) =
      now_ms.toNat * 262144 / 1000 % 16777216 ∧
    absoluteSendTime24 1500 = 393216 := by
  have hred : updateAbsoluteSendTime (some (id, extpos)) pkt
      rtp_packet_length numCSRCs headerLength now_ms =
      writeUWord24 pkt (12 + numCSRCs + extpos + 1)
        (absoluteSendTime24 now_ms) := by
    unfold updateAbsoluteSendTime
    dsimp only
    rw [if_neg hlen1, if_neg (not_not_intro hprofile),
      if_neg (not_not_intro hfirst)]
  rw [hred]
  have hb0 := getElem?_writeUWord24_byte0 pkt (12 + numCSRCs + extpos + 1)
    (absoluteSendTime24 now_ms)
    (by simp only [kAbsoluteSendTimeLength] at hpklen; omega)
  have hb1 := getElem?_writeUWord24_byte1 pkt (12 + numCSRCs + extpos + 1)
    (absoluteSendTime24 now_ms)
    (by simp only [kAbsoluteSendTimeLength] at hpklen; omega)
  have hb2 := getElem?_writeUWord24_byte2 pkt (12 + numCSRCs + extpos + 1)
    (absoluteSendTime24 now_ms)
    (by simp only [kAbsoluteSendTimeLength] at hpklen; omega)
  have hpos1 : 12 + numCSRCs + extpos + 2 = 12 + numCSRCs + extpos + 1 + 1 :=
    by omega
  have hpos2 : 12 + numCSRCs + extpos + 3 = 12 + numCSRCs + extpos + 1 + 2 :=
    by omega
  rw [hpos1, hpos2, hb0, hb1, hb2]
  simp only [Option.getD_some]
  rw [absoluteSendTime24_of_nonneg now_ms hnow]
  constructor
  · omega
  · decide

/-- Packet for the C7 witness: no CSRCs, profile 0xBE 0xDE at offset 12,
extension length 1 word, absolute-send-time block byte `(2 << 4) | 2` = 34
at offset 16, value bytes at 17-19. -/
def c7Packet : List Nat :=
  [0x90, 100, 0x03, 0xEB, 0, 0, 0, 100, 0, 0, 0, 5,
   0xBE, 0xDE, 0, 1, 34, 9, 9, 9]

/-- C7 witness: patching the concrete packet at `now_ms` = 1500 writes the
24-bit value 393216 = `((1500 << 18) / 1000) & 0xFFFFFF`. -/
theorem c7_updateAbsoluteSendTime_value_witness :
    ((updateAbsoluteSendTime (some (2, 4)) c7Packet 20 0 20
        1500)[12 + 0 + 4 + 1]?.getD 0) * 65536 +
      ((updateAbsoluteSendTime (some (2, 4)) c7Packet 20 0 20
        1500)[12 + 0 + 4 + 2]?.getD 0) * 256 +
      ((updateAbsoluteSendTime (some (2, 4)) c7Packet 20 0 20
        1500)[12 + 0 + 4 + 3]?.getD 0) =
      (1500 : Int).toNat * 262144 / 1000 % 16777216 ∧
    absoluteSendTime24 1500 = 393216 :=
  c7_updateAbsoluteSendTime_value 2 4 c7Packet 20 0 20 1500 (by decide)
    (by decide) (by decide) (by decide) (by decide)

/-- The sender operations that can touch `media_has_been_sent_`:
`PrepareAndSendPacket` and the direct-send tail of `SendToNetwork` (each
parameterized by whether `SendPacketToNetwork` succeeded), `SetRtpState`
(parameterized by the snapshot's flag value), and every other operation
(which leaves the flag alone). -/
inductive SenderOp where
  | prepareAndSendPacket (transport_ok : Bool)
  | sendToNetworkDirect (transport_ok : Bool)
  | setRtpState (media_has_been_sent : Bool)
  | otherOp
deriving DecidableEq

/-- Effect of one sender operation on `media_has_been_sent_`:
`PrepareAndSendPacket` (rtp_sender.cc:810-814) and `SendToNetwork`
(rtp_sender.cc:950-956) latch it to true only after a successful
`SendPacketToNetwork`; `SetRtpState` (rtp_sender.cc:1683-1692) overwrites it
with the restored snapshot value `rtp_state.media_has_been_sent`. -/
def stepMediaHasBeenSent (flag : Bool) : SenderOp → Bool
  | SenderOp.prepareAndSendPacket ok => if ok then true else flag
  | SenderOp.sendToNetworkDirect ok => if ok then true else flag
  | SenderOp.setRtpState b => b
  | SenderOp.otherOp => flag

/-- Whether an operation performed a successful transport write. -/
def opTransportOk : SenderOp → Bool
  | SenderOp.prepareAndSendPacket ok => ok
  | SenderOp.sendToNetworkDirect ok => ok
  | SenderOp.setRtpState _ => false
  | SenderOp.otherOp => false

/-- C8 counterexample: after a successful media send has latched the flag,
`SetRtpState` with a snapshot whose `media_has_been_sent` is false drives it
from true back to false — the claimed strict false-to-true monotonicity
fails across this two-operation sequence. -/
theorem c8_setRtpState_clears_flag :
    List.foldl stepMediaHasBeenSent false
      [SenderOp.prepareAndSendPacket true] = true ∧
    List.foldl stepMediaHasBeenSent false
      [SenderOp.prepareAndSendPacket true,
        SenderOp.setRtpState false] = false :=
  ⟨rfl, rfl⟩

/-- C8 (amended): for every sender operation other than `SetRtpState`, the
`media_has_been_sent` flag only transitions from false to true, and it
becomes true only through a successful transport write; `SetRtpState`
instead overwrites the flag with the restored snapshot value and may clear
it. -/
theorem c8_media_has_been_sent_monotone (flag : Bool) (op : SenderOp)
    (hop : ∀ b, op ≠ SenderOp.setRtpState b) :
    (flag = true → stepMediaHasBeenSent flag op = true) ∧
    (stepMediaHasBeenSent flag op = true →
      flag = true ∨ opTransportOk op = true) := by
  cases op with
  | prepareAndSendPacket ok =>
      cases ok <;> cases flag <;>
        simp [stepMediaHasBeenSent, opTransportOk]
  | sendToNetworkDirect ok =>
      cases ok <;> cases flag <;>
        simp [stepMediaHasBeenSent, opTransportOk]
  | setRtpState b => exact absurd rfl (hop b)
  | otherOp =>
      cases flag <;> simp [stepMediaHasBeenSent, opTransportOk]

/-- C8 witness: the amended monotonicity instantiated on a successful direct
send from the unsent state. -/
theorem c8_media_has_been_sent_monotone_witness :
    (false = true →
      stepMediaHasBeenSent false (SenderOp.sendToNetworkDirect true) = true) ∧
    (stepMediaHasBeenSent false (SenderOp.sendToNetworkDirect true) = true →
      false = true ∨ opTransportOk (SenderOp.sendToNetworkDirect true) = true)
    :=
  c8_media_has_been_sent_monotone false (SenderOp.sendToNetworkDirect true)
    (by decide)

/-- `MAX_INIT_RTP_SEQ_NUMBER`.  The constant is declared in a header outside
this file; modelled from the spec: initial sequence numbers are uniformly
random in [1, 0x7FFF]. -/
def MAX_INIT_RTP_SEQ_NUMBER : Nat := 32767

/-- `RAND_MAX` of the C library (glibc value); only the quotient shape of
the regeneration formula depends on it. -/
def RAND_MAX : Nat := 2147483647

/-- Slice of `RTPSender` state read and written by `SetSSRC`
(rtp_sender.cc:1462-1477): the media SSRC, the `ssrc_forced_` and
`sequence_number_forced_` latches, the media sequence number, and the set of
identifiers registered in the process-wide `SSRCDatabase` (a collaborator
outside this file; modelled from the spec: the call releases the previous
media SSRC to the allocator and registers the new one). -/
structure SsrcState where
  ssrc : Nat
  ssrc_forced : Bool
  sequence_number : Nat
  sequence_number_forced : Bool
  ssrc_db : List Nat
deriving DecidableEq

/-- Embedding of `RTPSender::SetSSRC` (rtp_sender.cc:1462-1477).  When the
new SSRC equals the current one and `ssrc_forced_` is already set, the call
returns without resetting anything.  Otherwise it latches `ssrc_forced_`,
returns the old SSRC to the database, registers the new one, installs it,
and — unless the sequence number was externally forced — regenerates the
sequence number as `rand() / (RAND_MAX / MAX_INIT_RTP_SEQ_NUMBER)`;
`randVal` is the `rand()` draw this call would consume. -/
def setSSRC (randVal : Nat) (st : SsrcState) (ssrc : Nat) : SsrcState :=
  if st.ssrc = ssrc ∧ st.ssrc_forced = true then st
  else
    { ssrc := ssrc
      ssrc_forced := true
      sequence_number :=
        if st.sequence_number_forced then st.sequence_number
        else randVal / (RAND_MAX / MAX_INIT_RTP_SEQ_NUMBER)
      sequence_number_forced := st.sequence_number_forced
      ssrc_db := ssrc :: st.ssrc_db.erase st.ssrc }

/-- Sender state for the C9 counterexample: SSRC 5 already forced, sequence
number 7 not forced. -/
def c9State : SsrcState :=
  { ssrc := 5, ssrc_forced := true, sequence_number := 7,
    sequence_number_forced := false, ssrc_db := [5] }

/-- C9 counterexample: calling `setSSRC` with the already-forced current
SSRC is a complete no-op — in particular the unforced sequence number stays
7 instead of being regenerated from this call's `rand()` draw (here 0, whose
regenerated value would be 0 ≠ 7), contradicting the claim that every call
regenerates it. -/
theorem c9_setSSRC_noop_when_forced_same :
    setSSRC 0 c9State 5 = c9State ∧
    (setSSRC 0 c9State 5).sequence_number = 7 ∧
    0 / (RAND_MAX / MAX_INIT_RTP_SEQ_NUMBER) ≠ 7 :=
  ⟨rfl, rfl, by decide⟩

/-- C9 (amended): unless the new SSRC equals the current one with
`ssrc_forced` already latched (in which case the call changes nothing),
`setSSRC` releases the previous media SSRC to the allocator, registers the
new one as the media SSRC, latches `ssrc_forced`, and regenerates the media
sequence number as `rand() / (RAND_MAX / MAX_INIT_RTP_SEQ_NUMBER)` exactly
when it was not externally forced. -/
theorem c9_setSSRC_registers_and_reseeds (randVal : Nat) (st : SsrcState)
    (ssrc : Nat) (h : ¬ (st.ssrc = ssrc ∧ st.ssrc_forced = true)) :
    (setSSRC randVal st ssrc).ssrc = ssrc ∧
    (setSSRC randVal st ssrc).ssrc_forced = true ∧
    (setSSRC randVal st ssrc).ssrc_db = ssrc :: st.ssrc_db.erase st.ssrc ∧
    (st.sequence_number_forced = false →
      (setSSRC randVal st ssrc).sequence_number =
        randVal / (RAND_MAX / MAX_INIT_RTP_SEQ_NUMBER)) ∧
    (st.sequence_number_forced = true →
      (setSSRC randVal st ssrc).sequence_number = st.sequence_number) := by
  unfold setSSRC
  rw [if_neg h]
  refine ⟨rfl, rfl, rfl, fun hf => ?_, fun hf => ?_⟩
  · simp [hf]
  · simp [hf]

/-- Sender state for the C9 witness: SSRC 5 not yet forced. -/
def c9FreshState : SsrcState :=
  { ssrc := 5, ssrc_forced := false, sequence_number := 7,
    sequence_number_forced := false, ssrc_db := [5] }

/-- C9 witness: forcing SSRC 10 over the unforced state releases 5,
registers 10, latches the flag and regenerates the sequence number from the
`rand()` draw 999999. -/
theorem c9_setSSRC_registers_and_reseeds_witness :
    (setSSRC 999999 c9FreshState 10).ssrc = 10 ∧
    (setSSRC 999999 c9FreshState 10).ssrc_forced = true ∧
    (setSSRC 999999 c9FreshState 10).ssrc_db =
      10 :: c9FreshState.ssrc_db.erase c9FreshState.ssrc ∧
    (c9FreshState.sequence_number_forced = false →
      (setSSRC 999999 c9FreshState 10).sequence_number =
        999999 / (RAND_MAX / MAX_INIT_RTP_SEQ_NUMBER)) ∧
    (c9FreshState.sequence_number_forced = true →
      (setSSRC 999999 c9FreshState 10).sequence_number =
        c9FreshState.sequence_number) :=
  c9_setSSRC_registers_and_reseeds 999999 c9FreshState 10 (by decide)
